import Mathlib

/-!
Verification of `src/StoreTrip.js` from the repository `ThadS97/AI-Store-Trip`.

The program is a single synchronous script: an outbound transit decision
(`takeBusOrTaxi`), an interactive shopping loop with a three-item checklist
(`storeScenario`), a checkout with 5% sales tax, an optional energy-drink
purchase, and a return transit decision (`takeTaxiOrBus`).  Every decision is
made by the shared weighted-sum evaluator `summationOfInputsAndWeights`
followed by a threshold comparison.

Modelling choices:
* JavaScript numbers are modelled as exact rationals.  All weights, biases and
  thresholds in the program are multiples of 1/20, and no reachable weighted
  sum lies close enough to a threshold for IEEE-754 rounding to change any
  comparison, so the rational semantics agrees with the JavaScript float
  semantics at every decision point of the program.
* `JsNum := Option ℚ` with `none` playing the role of `NaN`: an out-of-bounds
  array read feeds `undefined` into a multiplication, which yields `NaN`, and
  `NaN` is absorbing for `+`/`*` and makes every `>=` comparison false.
* `Math.random()` draws (`getZeroOrOne`) are universally quantified booleans;
  the draw used inside a purchase branch of the shopping loop is supplied
  alongside the direction token for that iteration.
* The `Agent.actionSequence` array, which the loop queries with
  `Array.prototype.includes`, stores raw booleans exactly as the source does.
-/

/-- A JavaScript number: `none` models `NaN`. -/
abbrev JsNum := Option ℚ

/-- JavaScript addition; `NaN` propagates. -/
def jsAdd : JsNum → JsNum → JsNum
  | some a, some b => some (a + b)
  | _, _ => none

/-- JavaScript multiplication; `NaN` propagates, and `x * undefined` (an
out-of-bounds `weightsArray[i]`) is also `NaN`. -/
def jsMul : JsNum → JsNum → JsNum
  | some a, some b => some (a * b)
  | _, _ => none

/-- JavaScript `sum >= threshold`: every comparison with `NaN` is false. -/
def jsGe (sum : JsNum) (threshold : ℚ) : Bool :=
  match sum with
  | some q => decide (threshold ≤ q)
  | none => false

/-- The `for` loop of `summationOfInputsAndWeights` (StoreTrip.js lines
77-79): it runs over the indices of `inputsArray`; once `weightsArray` is
exhausted, `weightsArray[i]` is `undefined` and the product is `NaN`. -/
def sumLoop : JsNum → List ℚ → List ℚ → JsNum
  | s, [], _ => s
  | s, x :: xs, [] => sumLoop (jsAdd s (jsMul (some x) none)) xs []
  | s, x :: xs, w :: ws => sumLoop (jsAdd s (jsMul (some x) (some w))) xs ws

/-- `summationOfInputsAndWeights(sum, inputsArray, weightsArray, bias)`
(StoreTrip.js lines 76-82). -/
def summationOfInputsAndWeights (sum : JsNum) (inputsArray weightsArray : List ℚ)
    (bias : ℚ) : JsNum :=
  jsAdd (sumLoop sum inputsArray weightsArray) (some bias)

/-- The threshold-decision pattern used at every decision site of the program:
`sum = summationOfInputsAndWeights(0, inputs, weights, bias); sum >= threshold`. -/
def thresholdDecision (inputs weights : List ℚ) (bias threshold : ℚ) : Bool :=
  jsGe (summationOfInputsAndWeights (some 0) inputs weights bias) threshold

/-- Mathematical dot product, used to state specifications. -/
def dot (xs ys : List ℚ) : ℚ := (List.zipWith (fun a b => a * b) xs ys).sum

/-- A shopping item object `{item, type, price}`. -/
structure Item where
  item : String
  type : String
  price : ℚ
deriving DecidableEq

def localEggs : Item := ⟨"eggs", "local", 6⟩
def brandNameEggs : Item := ⟨"eggs", "brand name", 8⟩
def localMilk : Item := ⟨"milk", "local", 7⟩
def brandNameMilk : Item := ⟨"milk", "brand name", 9⟩
def localLighter : Item := ⟨"lighter", "local", 3⟩
def brandNameLighter : Item := ⟨"lighter", "brand name", 5⟩

/-- JavaScript `Array.prototype.includes(x)` on a boolean array. -/
def includes (xs : List Bool) (x : Bool) : Bool := decide (x ∈ xs)

/-- JavaScript `Array.prototype.includes(x, fromIndex)` on a boolean array. -/
def includesFrom (xs : List Bool) (x : Bool) (fromIndex : Nat) : Bool :=
  decide (x ∈ xs.drop fromIndex)

/-- JavaScript `String.prototype.toLowerCase` (ASCII range). -/
def jsToLowerCase (s : String) : String := ⟨s.data.map Char.toLower⟩

/-- The four possibilities of the route `if`/`else if` chain. -/
inductive Route
  | left
  | right
  | straight
  | invalid
deriving DecidableEq

/-- The chain of `routeDecision.toLowerCase() === 'l' / 'r' / 's'` tests. -/
def parseRoute (routeDecision : String) : Route :=
  if jsToLowerCase routeDecision = "l" then Route.left
  else if jsToLowerCase routeDecision = "r" then Route.right
  else if jsToLowerCase routeDecision = "s" then Route.straight
  else Route.invalid

/-- The per-item perceptron, repeated verbatim for eggs, milk and lighter in
the source: inputs `[cost_factor = 1, localGoodsFactor, brand_name_factor = 1]`,
weights `[0.6, -0.3, 0.6]`, threshold `brand_name_item_threshold = 1.0`. -/
def purchaseDecision (spending_bias localGoodsFactor : ℚ) : Bool :=
  thresholdDecision [1, localGoodsFactor, 1] [0.6, -0.3, 0.6] spending_bias 1.0

/-- The mutable state of `storeScenario` during the shopping loop: the wallet,
`Agent.actionSequence`, the cart, the three checklist flags and the loop
condition.  (`Agent.environmentSequence` is never read or written inside the
loop, so it is not tracked.) -/
structure StoreState where
  money : ℚ
  actionSeq : List Bool
  cart : List Item
  gotEggs : Bool
  gotMilk : Bool
  gotLighter : Bool
  checkListIncomplete : Bool
deriving DecidableEq

/-- State on entering the shopping loop: the transit action has already pushed
one `true` onto `Agent.actionSequence`, the cart is empty, all flags false. -/
def storeInit (money : ℚ) : StoreState :=
  { money := money, actionSeq := [true], cart := [], gotEggs := false,
    gotMilk := false, gotLighter := false, checkListIncomplete := true }

/-- The check after an iteration body (StoreTrip.js lines 363-366 / 536-539):
`if (includes(gotEggs) && includes(gotMilk) && includes(gotLighter))
checkListIncomplete = false`. -/
def completionCheck (st : StoreState) : StoreState :=
  if includes st.actionSeq st.gotEggs && includes st.actionSeq st.gotMilk &&
      includes st.actionSeq st.gotLighter then
    { st with checkListIncomplete := false }
  else st

/-- The `'l'` arm: guarded by `!actionSequence.includes(gotEggs, 1)`; on a
purchase the perceptron picks brand-name vs local eggs, the item is pushed on
the cart, `gotEggs` is set and `true` is pushed on the action sequence; a
re-visit hits `continue`, skipping the completion check. -/
def eggsBranch (spending_bias : ℚ) (st : StoreState) (rand : Bool) : StoreState :=
  if includesFrom st.actionSeq st.gotEggs 1 then st
  else
    completionCheck
      { st with
        cart := st.cart ++
          [if purchaseDecision spending_bias (if rand then 1 else 0) then brandNameEggs
           else localEggs],
        gotEggs := true,
        actionSeq := st.actionSeq ++ [true] }

/-- The `'r'` arm (milk), same shape as `eggsBranch`. -/
def milkBranch (spending_bias : ℚ) (st : StoreState) (rand : Bool) : StoreState :=
  if includesFrom st.actionSeq st.gotMilk 1 then st
  else
    completionCheck
      { st with
        cart := st.cart ++
          [if purchaseDecision spending_bias (if rand then 1 else 0) then brandNameMilk
           else localMilk],
        gotMilk := true,
        actionSeq := st.actionSeq ++ [true] }

/-- The `'s'` arm (lighter), same shape as `eggsBranch`. -/
def lighterBranch (spending_bias : ℚ) (st : StoreState) (rand : Bool) : StoreState :=
  if includesFrom st.actionSeq st.gotLighter 1 then st
  else
    completionCheck
      { st with
        cart := st.cart ++
          [if purchaseDecision spending_bias (if rand then 1 else 0) then brandNameLighter
           else localLighter],
        gotLighter := true,
        actionSeq := st.actionSeq ++ [true] }

/-- One iteration of the `while (checkListIncomplete)` loop, for the direction
token `routeDecision` read at the prompt and the `getZeroOrOne()` draw `rand`
made inside a purchase branch (a draw happens only when a purchase branch is
entered, so supplying it per iteration is faithful).  An invalid token falls
through to the completion check with no other effect. -/
def storeStep (spending_bias : ℚ) (st : StoreState) (routeDecision : String)
    (rand : Bool) : StoreState :=
  match parseRoute routeDecision with
  | Route.left => eggsBranch spending_bias st rand
  | Route.right => milkBranch spending_bias st rand
  | Route.straight => lighterBranch spending_bias st rand
  | Route.invalid => completionCheck st

/-- Running the shopping loop on a finite list of (direction token, random
draw) pairs; the loop body executes only while `checkListIncomplete` holds. -/
def storeRun (spending_bias : ℚ) : StoreState → List (String × Bool) → StoreState
  | st, [] => st
  | st, (d, r) :: rest =>
    if st.checkListIncomplete then storeRun spending_bias (storeStep spending_bias st d r) rest
    else st

/-- The checkout subtotal loop (StoreTrip.js lines 369-373 / 542-546). -/
def shoppingSubTotal (cart : List Item) : ℚ :=
  List.foldl (fun s it => s + it.price) 0 cart

/-- `salesTaxofSubTotal = shoppingSubTotal * sales_tax_percent` with
`sales_tax_percent = 0.05`. -/
def salesTaxOfSubTotal (sub : ℚ) : ℚ := sub * 0.05

/-- `totalPrice = shoppingSubTotal + salesTaxofSubTotal`. -/
def totalPrice (sub : ℚ) : ℚ := sub + salesTaxOfSubTotal sub

/-- The wallet right after `money -= totalPrice`, the value printed by
`"Money left: $" + money` before the energy-drink branch. -/
def afterCheckoutMoney (spending_bias money0 : ℚ) (inputs : List (String × Bool)) : ℚ :=
  (storeRun spending_bias (storeInit money0) inputs).money
    - totalPrice (shoppingSubTotal (storeRun spending_bias (storeInit money0) inputs).cart)

/-- Observable outcome of `storeScenario`. -/
structure ScenarioResult where
  moneyAfterCheckout : ℚ
  money : ℚ
  gotEnergyDrink : Bool
  cart : List Item
  done : Bool
deriving DecidableEq

/-- `storeScenario` after the dispatch on the transit mode (the two branches
of the source are identical except for `spending_bias`, which is `-0.2` in the
taxi branch and `0` in the bus branch): run the shopping loop, check out, then
buy the energy drink (cost 6) unless `money < 40`. -/
def storeScenario (spending_bias money0 : ℚ) (inputs : List (String × Bool)) :
    ScenarioResult :=
  if afterCheckoutMoney spending_bias money0 inputs < 40 then
    { moneyAfterCheckout := afterCheckoutMoney spending_bias money0 inputs,
      money := afterCheckoutMoney spending_bias money0 inputs,
      gotEnergyDrink := false,
      cart := (storeRun spending_bias (storeInit money0) inputs).cart,
      done := !(storeRun spending_bias (storeInit money0) inputs).checkListIncomplete }
  else
    { moneyAfterCheckout := afterCheckoutMoney spending_bias money0 inputs,
      money := afterCheckoutMoney spending_bias money0 inputs - 6,
      gotEnergyDrink := true,
      cart := (storeRun spending_bias (storeInit money0) inputs).cart,
      done := !(storeRun spending_bias (storeInit money0) inputs).checkListIncomplete }

/-- Outcome of a transit decision: the chosen branch and the wallet after the
fare. -/
structure TransitOutcome where
  choice : Bool
  money : ℚ
deriving DecidableEq

/-- `getZeroOrOne()` outcomes as rationals. -/
def b2q (b : Bool) : ℚ := if b then 1 else 0

/-- `takeBusOrTaxi` (StoreTrip.js lines 119-181): inputs
`[cost_factor = 1, weatherFactor, trafficFactor, busCrowdingFactor]`, weights
`[0.7, 0.5, 0.4, 0.3]`, `bus_bias = -0.2`, `taxi_choice_threshold = 1.5`;
`choice = true` means taxi (`money -= 10`), `false` means bus (`money -= 5`). -/
def takeBusOrTaxi (money : ℚ) (weatherFactor trafficFactor busCrowdingFactor : ℚ) :
    TransitOutcome :=
  if thresholdDecision [1, weatherFactor, trafficFactor, busCrowdingFactor]
      [0.7, 0.5, 0.4, 0.3] (-0.2) 1.5 then
    { choice := true, money := money - 10 }
  else
    { choice := false, money := money - 5 }

/-- `takeTaxiOrBus` (StoreTrip.js lines 606-675): inputs
`[cost_factor = 1, weatherFactor, trafficFactor, busCrowdingFactor,
moneyUnder40]` with `moneyUnder40 = 1` iff `money < 40`, weights
`[0.7, -0.5, 0.6, -0.3, 0.4]`, `taxi_bias = -0.2`,
`bus_choice_threshold = 1.3`; `choice = true` means bus home (`money -= 5`),
`false` means taxi home (`money -= 11`). -/
def takeTaxiOrBus (money : ℚ) (weatherFactor trafficFactor busCrowdingFactor : ℚ) :
    TransitOutcome :=
  if thresholdDecision
      [1, weatherFactor, trafficFactor, busCrowdingFactor,
        if money < 40 then 1 else 0]
      [0.7, -0.5, 0.6, -0.3, 0.4] (-0.2) 1.3 then
    { choice := true, money := money - 5 }
  else
    { choice := false, money := money - 11 }

/-- The run from the start (`money = 75`) through the outbound transit and the
whole `storeScenario`.  The dispatch in `storeScenario` selects the taxi
branch (`spending_bias = -0.2`) exactly when the outbound decision was taxi:
at that point `actionSequence = [true]`, so
`actionSequence.includes(tookTaxi)` is true iff `tookTaxi` is `true`. -/
def pipelineAfterStore (w t b : Bool) (inputs : List (String × Bool)) : ScenarioResult :=
  storeScenario
    (if (takeBusOrTaxi 75 (b2q w) (b2q t) (b2q b)).choice then -0.2 else 0)
    (takeBusOrTaxi 75 (b2q w) (b2q t) (b2q b)).money inputs

/-- Number of checklist flags already satisfied. -/
def flagCount (st : StoreState) : Nat :=
  (if st.gotEggs then 1 else 0) + (if st.gotMilk then 1 else 0) +
    (if st.gotLighter then 1 else 0)

/-- Largest possible cart subtotal given which flags are satisfied (each item
is bought at most once, at brand-name price at most). -/
def priceBound (st : StoreState) : ℚ :=
  (if st.gotEggs then (8 : ℚ) else 0) + (if st.gotMilk then (9 : ℚ) else 0) +
    (if st.gotLighter then (5 : ℚ) else 0)

/-- How many cart entries carry a given item name. -/
def cartCount (cart : List Item) (name : String) : Nat :=
  (cart.filter (fun it => it.item == name)).length

/-- Invariant of every reachable state of the shopping loop: the action
sequence is `[true, true, ...]` with one entry per satisfied flag plus the
transit action, the cart holds exactly one entry per satisfied flag, the
subtotal is bounded by the brand-name prices of the satisfied flags, and the
loop condition has been cleared exactly when all three flags hold. -/
def LoopInv (st : StoreState) : Prop :=
  st.actionSeq = List.replicate (1 + flagCount st) true ∧
  cartCount st.cart "eggs" = (if st.gotEggs then 1 else 0) ∧
  cartCount st.cart "milk" = (if st.gotMilk then 1 else 0) ∧
  cartCount st.cart "lighter" = (if st.gotLighter then 1 else 0) ∧
  shoppingSubTotal st.cart ≤ priceBound st ∧
  (st.checkListIncomplete = false ↔
    (st.gotEggs = true ∧ st.gotMilk = true ∧ st.gotLighter = true))

theorem sumLoop_none (xs ws : List ℚ) : sumLoop none xs ws = none := by
  induction xs generalizing ws with
  | nil => rfl
  | cons x xs ih => cases ws <;> simp [sumLoop, jsAdd, jsMul, ih]

theorem sumLoop_some (s : ℚ) (xs ws : List ℚ) (h : xs.length ≤ ws.length) :
    sumLoop (some s) xs ws = some (s + dot xs ws) := by
  induction xs generalizing s ws with
  | nil => simp [sumLoop, dot]
  | cons x xs ih =>
    cases ws with
    | nil => simp at h
    | cons w ws =>
      simp only [sumLoop, jsAdd, jsMul]
      rw [ih (s + x * w) ws (by simpa using h)]
      simp [dot, add_assoc]

theorem sumLoop_overrun (s : ℚ) (xs ws : List ℚ) (h : ws.length < xs.length) :
    sumLoop (some s) xs ws = none := by
  induction xs generalizing s ws with
  | nil => simp at h
  | cons x xs ih =>
    cases ws with
    | nil => simp [sumLoop, jsMul, jsAdd, sumLoop_none]
    | cons w ws =>
      simp only [sumLoop, jsAdd, jsMul]
      exact ih (s + x * w) ws (by simpa using h)

theorem drop_one_replicate (n : Nat) :
    (List.replicate (1 + n) true).drop 1 = List.replicate n true := by
  rw [Nat.add_comm, List.replicate_succ]
  rfl

theorem includesFrom_one_replicate (n : Nat) (f : Bool) (hf : f = true → n ≠ 0) :
    includesFrom (List.replicate (1 + n) true) f 1 = f := by
  unfold includesFrom
  rw [drop_one_replicate]
  cases f with
  | false => simp [List.mem_replicate]
  | true => simp [List.mem_replicate, hf rfl]

theorem includes_replicate (n : Nat) (f : Bool) :
    includes (List.replicate (1 + n) true) f = f := by
  unfold includes
  cases f with
  | false => simp [List.mem_replicate]
  | true => simp [List.mem_replicate]

theorem guard_eggs (st : StoreState)
    (hA : st.actionSeq = List.replicate (1 + flagCount st) true) :
    includesFrom st.actionSeq st.gotEggs 1 = st.gotEggs := by
  rw [hA]
  refine includesFrom_one_replicate _ _ ?_
  intro hE
  unfold flagCount
  rw [hE]
  simp

theorem guard_milk (st : StoreState)
    (hA : st.actionSeq = List.replicate (1 + flagCount st) true) :
    includesFrom st.actionSeq st.gotMilk 1 = st.gotMilk := by
  rw [hA]
  refine includesFrom_one_replicate _ _ ?_
  intro hM
  unfold flagCount
  rw [hM]
  simp

theorem guard_lighter (st : StoreState)
    (hA : st.actionSeq = List.replicate (1 + flagCount st) true) :
    includesFrom st.actionSeq st.gotLighter 1 = st.gotLighter := by
  rw [hA]
  refine includesFrom_one_replicate _ _ ?_
  intro hL
  unfold flagCount
  rw [hL]
  simp

theorem completionCheck_eq (st : StoreState)
    (hA : st.actionSeq = List.replicate (1 + flagCount st) true) :
    completionCheck st =
      if st.gotEggs && st.gotMilk && st.gotLighter then
        { st with checkListIncomplete := false }
      else st := by
  unfold completionCheck
  rw [hA, includes_replicate, includes_replicate, includes_replicate]

theorem completionCheck_money (st : StoreState) :
    (completionCheck st).money = st.money := by
  unfold completionCheck
  split <;> rfl

theorem completionCheck_cart (st : StoreState) :
    (completionCheck st).cart = st.cart := by
  unfold completionCheck
  split <;> rfl

theorem completionCheck_gotEggs (st : StoreState) :
    (completionCheck st).gotEggs = st.gotEggs := by
  unfold completionCheck
  split <;> rfl

theorem completionCheck_gotMilk (st : StoreState) :
    (completionCheck st).gotMilk = st.gotMilk := by
  unfold completionCheck
  split <;> rfl

theorem completionCheck_gotLighter (st : StoreState) :
    (completionCheck st).gotLighter = st.gotLighter := by
  unfold completionCheck
  split <;> rfl

theorem completionCheck_actionSeq (st : StoreState) :
    (completionCheck st).actionSeq = st.actionSeq := by
  unfold completionCheck
  split <;> rfl

theorem cartCount_append (cart : List Item) (it : Item) (name : String) :
    cartCount (cart ++ [it]) name
      = cartCount cart name + (if it.item == name then 1 else 0) := by
  unfold cartCount
  cases h : (it.item == name) <;>
    simp [List.filter_append, List.filter_cons, h]

theorem shoppingSubTotal_append (cart : List Item) (it : Item) :
    shoppingSubTotal (cart ++ [it]) = shoppingSubTotal cart + it.price := by
  unfold shoppingSubTotal
  rw [List.foldl_append]
  rfl

theorem item_field_eggs (c : Bool) :
    (if c then brandNameEggs else localEggs).item = "eggs" := by cases c <;> rfl

theorem item_field_milk (c : Bool) :
    (if c then brandNameMilk else localMilk).item = "milk" := by cases c <;> rfl

theorem item_field_lighter (c : Bool) :
    (if c then brandNameLighter else localLighter).item = "lighter" := by cases c <;> rfl

theorem item_price_eggs (c : Bool) :
    (if c then brandNameEggs else localEggs).price ≤ 8 := by
  cases c <;> norm_num [brandNameEggs, localEggs]

theorem item_price_milk (c : Bool) :
    (if c then brandNameMilk else localMilk).price ≤ 9 := by
  cases c <;> norm_num [brandNameMilk, localMilk]

theorem item_price_lighter (c : Bool) :
    (if c then brandNameLighter else localLighter).price ≤ 5 := by
  cases c <;> norm_num [brandNameLighter, localLighter]

theorem beq_eggs_milk : (("eggs" : String) == "milk") = false := by decide

theorem beq_eggs_lighter : (("eggs" : String) == "lighter") = false := by decide

theorem beq_milk_eggs : (("milk" : String) == "eggs") = false := by decide

theorem beq_milk_lighter : (("milk" : String) == "lighter") = false := by decide

theorem beq_lighter_eggs : (("lighter" : String) == "eggs") = false := by decide

theorem beq_lighter_milk : (("lighter" : String) == "milk") = false := by decide

theorem inv_completionCheck_pending (st : StoreState)
    (hA : st.actionSeq = List.replicate (1 + flagCount st) true)
    (hCE : cartCount st.cart "eggs" = (if st.gotEggs then 1 else 0))
    (hCM : cartCount st.cart "milk" = (if st.gotMilk then 1 else 0))
    (hCL : cartCount st.cart "lighter" = (if st.gotLighter then 1 else 0))
    (hS : shoppingSubTotal st.cart ≤ priceBound st)
    (hInc : st.checkListIncomplete = true) :
    LoopInv (completionCheck st) := by
  rw [completionCheck_eq st hA]
  by_cases hall : (st.gotEggs && st.gotMilk && st.gotLighter) = true
  · rw [if_pos hall]
    have h3 : st.gotEggs = true ∧ st.gotMilk = true ∧ st.gotLighter = true := by
      simpa [Bool.and_eq_true, and_assoc] using hall
    exact ⟨hA, hCE, hCM, hCL, hS, by simp [h3.1, h3.2.1, h3.2.2]⟩
  · rw [if_neg hall]
    refine ⟨hA, hCE, hCM, hCL, hS, ?_⟩
    refine iff_of_false (by simp [hInc]) ?_
    rintro ⟨he, hm, hl⟩
    exact hall (by simp [he, hm, hl])

theorem inv_completionCheck (st : StoreState) (h : LoopInv st) :
    LoopInv (completionCheck st) := by
  obtain ⟨hA, hCE, hCM, hCL, hS, hI⟩ := h
  cases hInc : st.checkListIncomplete with
  | false =>
    obtain ⟨he, hm, hl⟩ := hI.mp hInc
    rw [completionCheck_eq st hA, if_pos (by simp [he, hm, hl])]
    exact ⟨hA, hCE, hCM, hCL, hS, by simp [he, hm, hl]⟩
  | true => exact inv_completionCheck_pending st hA hCE hCM hCL hS hInc

theorem inv_purchase_eggs (st : StoreState) (itm : Item)
    (h : LoopInv st) (hE : st.gotEggs = false)
    (hname : itm.item = "eggs") (hprice : itm.price ≤ 8) :
    LoopInv (completionCheck
      { st with
        cart := st.cart ++ [itm]
        gotEggs := true
        actionSeq := st.actionSeq ++ [true] }) := by
  obtain ⟨hA, hCE, hCM, hCL, hS, hI⟩ := h
  refine inv_completionCheck_pending _ ?_ ?_ ?_ ?_ ?_ ?_
  · show st.actionSeq ++ [true] = _
    have hfc : flagCount
        { st with
          cart := st.cart ++ [itm]
          gotEggs := true
          actionSeq := st.actionSeq ++ [true] } = flagCount st + 1 := by
      simp [flagCount, hE]
      omega
    rw [hfc, hA, show 1 + (flagCount st + 1) = (1 + flagCount st) + 1 from by omega,
      List.replicate_succ']
  · show cartCount (st.cart ++ [itm]) "eggs" = 1
    rw [cartCount_append, hCE, hE, hname]
    simp
  · show cartCount (st.cart ++ [itm]) "milk" = (if st.gotMilk then 1 else 0)
    rw [cartCount_append, hCM, hname, beq_eggs_milk]
    simp
  · show cartCount (st.cart ++ [itm]) "lighter" = (if st.gotLighter then 1 else 0)
    rw [cartCount_append, hCL, hname, beq_eggs_lighter]
    simp
  · show shoppingSubTotal (st.cart ++ [itm]) ≤ _
    rw [shoppingSubTotal_append]
    have hpb : priceBound
        { st with
          cart := st.cart ++ [itm]
          gotEggs := true
          actionSeq := st.actionSeq ++ [true] }
        = 8 + ((if st.gotMilk then (9 : ℚ) else 0) + (if st.gotLighter then (5 : ℚ) else 0)) := by
      simp [priceBound, add_assoc]
    have hpb0 : priceBound st
        = (if st.gotMilk then (9 : ℚ) else 0) + (if st.gotLighter then (5 : ℚ) else 0) := by
      simp [priceBound, hE]
    rw [hpb]
    rw [hpb0] at hS
    linarith
  · show st.checkListIncomplete = true
    cases hInc : st.checkListIncomplete with
    | false => exact absurd (hI.mp hInc).1 (by simp [hE])
    | true => rfl

theorem inv_purchase_milk (st : StoreState) (itm : Item)
    (h : LoopInv st) (hM : st.gotMilk = false)
    (hname : itm.item = "milk") (hprice : itm.price ≤ 9) :
    LoopInv (completionCheck
      { st with
        cart := st.cart ++ [itm]
        gotMilk := true
        actionSeq := st.actionSeq ++ [true] }) := by
  obtain ⟨hA, hCE, hCM, hCL, hS, hI⟩ := h
  refine inv_completionCheck_pending _ ?_ ?_ ?_ ?_ ?_ ?_
  · show st.actionSeq ++ [true] = _
    have hfc : flagCount
        { st with
          cart := st.cart ++ [itm]
          gotMilk := true
          actionSeq := st.actionSeq ++ [true] } = flagCount st + 1 := by
      simp [flagCount, hM]
      omega
    rw [hfc, hA, show 1 + (flagCount st + 1) = (1 + flagCount st) + 1 from by omega,
      List.replicate_succ']
  · show cartCount (st.cart ++ [itm]) "eggs" = (if st.gotEggs then 1 else 0)
    rw [cartCount_append, hCE, hname, beq_milk_eggs]
    simp
  · show cartCount (st.cart ++ [itm]) "milk" = 1
    rw [cartCount_append, hCM, hM, hname]
    simp
  · show cartCount (st.cart ++ [itm]) "lighter" = (if st.gotLighter then 1 else 0)
    rw [cartCount_append, hCL, hname, beq_milk_lighter]
    simp
  · show shoppingSubTotal (st.cart ++ [itm]) ≤ _
    rw [shoppingSubTotal_append]
    have hpb : priceBound
        { st with
          cart := st.cart ++ [itm]
          gotMilk := true
          actionSeq := st.actionSeq ++ [true] }
        = 9 + ((if st.gotEggs then (8 : ℚ) else 0) + (if st.gotLighter then (5 : ℚ) else 0)) := by
      simp [priceBound]
      ring
    have hpb0 : priceBound st
        = (if st.gotEggs then (8 : ℚ) else 0) + (if st.gotLighter then (5 : ℚ) else 0) := by
      simp [priceBound, hM]
    rw [hpb]
    rw [hpb0] at hS
    linarith
  · show st.checkListIncomplete = true
    cases hInc : st.checkListIncomplete with
    | false => exact absurd (hI.mp hInc).2.1 (by simp [hM])
    | true => rfl

theorem inv_purchase_lighter (st : StoreState) (itm : Item)
    (h : LoopInv st) (hL : st.gotLighter = false)
    (hname : itm.item = "lighter") (hprice : itm.price ≤ 5) :
    LoopInv (completionCheck
      { st with
        cart := st.cart ++ [itm]
        gotLighter := true
        actionSeq := st.actionSeq ++ [true] }) := by
  obtain ⟨hA, hCE, hCM, hCL, hS, hI⟩ := h
  refine inv_completionCheck_pending _ ?_ ?_ ?_ ?_ ?_ ?_
  · show st.actionSeq ++ [true] = _
    have hfc : flagCount
        { st with
          cart := st.cart ++ [itm]
          gotLighter := true
          actionSeq := st.actionSeq ++ [true] } = flagCount st + 1 := by
      simp [flagCount, hL]
    rw [hfc, hA, show 1 + (flagCount st + 1) = (1 + flagCount st) + 1 from by omega,
      List.replicate_succ']
  · show cartCount (st.cart ++ [itm]) "eggs" = (if st.gotEggs then 1 else 0)
    rw [cartCount_append, hCE, hname, beq_lighter_eggs]
    simp
  · show cartCount (st.cart ++ [itm]) "milk" = (if st.gotMilk then 1 else 0)
    rw [cartCount_append, hCM, hname, beq_lighter_milk]
    simp
  · show cartCount (st.cart ++ [itm]) "lighter" = 1
    rw [cartCount_append, hCL, hL, hname]
    simp
  · show shoppingSubTotal (st.cart ++ [itm]) ≤ _
    rw [shoppingSubTotal_append]
    have hpb : priceBound
        { st with
          cart := st.cart ++ [itm]
          gotLighter := true
          actionSeq := st.actionSeq ++ [true] }
        = 5 + ((if st.gotEggs then (8 : ℚ) else 0) + (if st.gotMilk then (9 : ℚ) else 0)) := by
      simp [priceBound]
      ring
    have hpb0 : priceBound st
        = (if st.gotEggs then (8 : ℚ) else 0) + (if st.gotMilk then (9 : ℚ) else 0) := by
      simp [priceBound, hL]
    rw [hpb]
    rw [hpb0] at hS
    linarith
  · show st.checkListIncomplete = true
    cases hInc : st.checkListIncomplete with
    | false => exact absurd (hI.mp hInc).2.2 (by simp [hL])
    | true => rfl

theorem inv_eggsBranch (sb : ℚ) (st : StoreState) (r : Bool) (h : LoopInv st) :
    LoopInv (eggsBranch sb st r) := by
  unfold eggsBranch
  rw [guard_eggs st h.1]
  cases hE : st.gotEggs with
  | true =>
    rw [if_pos rfl]
    exact h
  | false =>
    rw [if_neg (by simp)]
    exact inv_purchase_eggs st _ h hE (item_field_eggs _) (item_price_eggs _)

theorem inv_milkBranch (sb : ℚ) (st : StoreState) (r : Bool) (h : LoopInv st) :
    LoopInv (milkBranch sb st r) := by
  unfold milkBranch
  rw [guard_milk st h.1]
  cases hM : st.gotMilk with
  | true =>
    rw [if_pos rfl]
    exact h
  | false =>
    rw [if_neg (by simp)]
    exact inv_purchase_milk st _ h hM (item_field_milk _) (item_price_milk _)

theorem inv_lighterBranch (sb : ℚ) (st : StoreState) (r : Bool) (h : LoopInv st) :
    LoopInv (lighterBranch sb st r) := by
  unfold lighterBranch
  rw [guard_lighter st h.1]
  cases hL : st.gotLighter with
  | true =>
    rw [if_pos rfl]
    exact h
  | false =>
    rw [if_neg (by simp)]
    exact inv_purchase_lighter st _ h hL (item_field_lighter _) (item_price_lighter _)

theorem inv_step (sb : ℚ) (st : StoreState) (d : String) (r : Bool) (h : LoopInv st) :
    LoopInv (storeStep sb st d r) := by
  unfold storeStep
  cases parseRoute d with
  | left => exact inv_eggsBranch sb st r h
  | right => exact inv_milkBranch sb st r h
  | straight => exact inv_lighterBranch sb st r h
  | invalid => exact inv_completionCheck st h

theorem inv_init (m : ℚ) : LoopInv (storeInit m) := by
  refine ⟨rfl, rfl, rfl, rfl, ?_, ?_⟩
  · norm_num [shoppingSubTotal, priceBound, storeInit]
  · simp [storeInit]

theorem inv_run (sb : ℚ) (st : StoreState) (inputs : List (String × Bool))
    (h : LoopInv st) : LoopInv (storeRun sb st inputs) := by
  induction inputs generalizing st with
  | nil => exact h
  | cons p rest ih =>
    obtain ⟨d, r⟩ := p
    simp only [storeRun]
    split
    · exact ih _ (inv_step sb st d r h)
    · exact h

theorem storeStep_left (sb : ℚ) (st : StoreState) (d : String) (r : Bool)
    (hd : parseRoute d = Route.left) : storeStep sb st d r = eggsBranch sb st r := by
  unfold storeStep
  rw [hd]

theorem storeStep_right (sb : ℚ) (st : StoreState) (d : String) (r : Bool)
    (hd : parseRoute d = Route.right) : storeStep sb st d r = milkBranch sb st r := by
  unfold storeStep
  rw [hd]

theorem storeStep_straight (sb : ℚ) (st : StoreState) (d : String) (r : Bool)
    (hd : parseRoute d = Route.straight) : storeStep sb st d r = lighterBranch sb st r := by
  unfold storeStep
  rw [hd]

theorem storeStep_invalid (sb : ℚ) (st : StoreState) (d : String) (r : Bool)
    (hd : parseRoute d = Route.invalid) : storeStep sb st d r = completionCheck st := by
  unfold storeStep
  rw [hd]

theorem eggsBranch_money (sb : ℚ) (st : StoreState) (r : Bool) :
    (eggsBranch sb st r).money = st.money := by
  unfold eggsBranch
  split
  · rfl
  · rw [completionCheck_money]

theorem milkBranch_money (sb : ℚ) (st : StoreState) (r : Bool) :
    (milkBranch sb st r).money = st.money := by
  unfold milkBranch
  split
  · rfl
  · rw [completionCheck_money]

theorem lighterBranch_money (sb : ℚ) (st : StoreState) (r : Bool) :
    (lighterBranch sb st r).money = st.money := by
  unfold lighterBranch
  split
  · rfl
  · rw [completionCheck_money]

theorem step_money (sb : ℚ) (st : StoreState) (d : String) (r : Bool) :
    (storeStep sb st d r).money = st.money := by
  cases hR : parseRoute d with
  | left => rw [storeStep_left sb st d r hR, eggsBranch_money]
  | right => rw [storeStep_right sb st d r hR, milkBranch_money]
  | straight => rw [storeStep_straight sb st d r hR, lighterBranch_money]
  | invalid => rw [storeStep_invalid sb st d r hR, completionCheck_money]

theorem run_money (sb : ℚ) (st : StoreState) (inputs : List (String × Bool)) :
    (storeRun sb st inputs).money = st.money := by
  induction inputs generalizing st with
  | nil => rfl
  | cons p rest ih =>
    obtain ⟨d, r⟩ := p
    simp only [storeRun]
    split
    · rw [ih, step_money]
    · rfl

theorem step_gotEggs_mono (sb : ℚ) (st : StoreState) (d : String) (r : Bool)
    (h : st.gotEggs = true) : (storeStep sb st d r).gotEggs = true := by
  cases hR : parseRoute d with
  | left =>
    rw [storeStep_left sb st d r hR]
    unfold eggsBranch
    split
    · exact h
    · rw [completionCheck_gotEggs]
  | right =>
    rw [storeStep_right sb st d r hR]
    unfold milkBranch
    split
    · exact h
    · rw [completionCheck_gotEggs]
      exact h
  | straight =>
    rw [storeStep_straight sb st d r hR]
    unfold lighterBranch
    split
    · exact h
    · rw [completionCheck_gotEggs]
      exact h
  | invalid =>
    rw [storeStep_invalid sb st d r hR, completionCheck_gotEggs]
    exact h

theorem step_gotMilk_mono (sb : ℚ) (st : StoreState) (d : String) (r : Bool)
    (h : st.gotMilk = true) : (storeStep sb st d r).gotMilk = true := by
  cases hR : parseRoute d with
  | left =>
    rw [storeStep_left sb st d r hR]
    unfold eggsBranch
    split
    · exact h
    · rw [completionCheck_gotMilk]
      exact h
  | right =>
    rw [storeStep_right sb st d r hR]
    unfold milkBranch
    split
    · exact h
    · rw [completionCheck_gotMilk]
  | straight =>
    rw [storeStep_straight sb st d r hR]
    unfold lighterBranch
    split
    · exact h
    · rw [completionCheck_gotMilk]
      exact h
  | invalid =>
    rw [storeStep_invalid sb st d r hR, completionCheck_gotMilk]
    exact h

theorem step_gotLighter_mono (sb : ℚ) (st : StoreState) (d : String) (r : Bool)
    (h : st.gotLighter = true) : (storeStep sb st d r).gotLighter = true := by
  cases hR : parseRoute d with
  | left =>
    rw [storeStep_left sb st d r hR]
    unfold eggsBranch
    split
    · exact h
    · rw [completionCheck_gotLighter]
      exact h
  | right =>
    rw [storeStep_right sb st d r hR]
    unfold milkBranch
    split
    · exact h
    · rw [completionCheck_gotLighter]
      exact h
  | straight =>
    rw [storeStep_straight sb st d r hR]
    unfold lighterBranch
    split
    · exact h
    · rw [completionCheck_gotLighter]
  | invalid =>
    rw [storeStep_invalid sb st d r hR, completionCheck_gotLighter]
    exact h

theorem step_left_gotEggs (sb : ℚ) (st : StoreState) (d : String) (r : Bool)
    (h : LoopInv st) (hd : parseRoute d = Route.left) :
    (storeStep sb st d r).gotEggs = true := by
  rw [storeStep_left sb st d r hd]
  unfold eggsBranch
  rw [guard_eggs st h.1]
  cases hE : st.gotEggs with
  | true =>
    rw [if_pos rfl]
    exact hE
  | false =>
    rw [if_neg (by simp), completionCheck_gotEggs]

theorem step_right_gotMilk (sb : ℚ) (st : StoreState) (d : String) (r : Bool)
    (h : LoopInv st) (hd : parseRoute d = Route.right) :
    (storeStep sb st d r).gotMilk = true := by
  rw [storeStep_right sb st d r hd]
  unfold milkBranch
  rw [guard_milk st h.1]
  cases hM : st.gotMilk with
  | true =>
    rw [if_pos rfl]
    exact hM
  | false =>
    rw [if_neg (by simp), completionCheck_gotMilk]

theorem step_straight_gotLighter (sb : ℚ) (st : StoreState) (d : String) (r : Bool)
    (h : LoopInv st) (hd : parseRoute d = Route.straight) :
    (storeStep sb st d r).gotLighter = true := by
  rw [storeStep_straight sb st d r hd]
  unfold lighterBranch
  rw [guard_lighter st h.1]
  cases hL : st.gotLighter with
  | true =>
    rw [if_pos rfl]
    exact hL
  | false =>
    rw [if_neg (by simp), completionCheck_gotLighter]

theorem run_complete (sb : ℚ) (st : StoreState) (inputs : List (String × Bool))
    (h : LoopInv st)
    (he : (∃ p ∈ inputs, parseRoute p.1 = Route.left) ∨ st.gotEggs = true)
    (hm : (∃ p ∈ inputs, parseRoute p.1 = Route.right) ∨ st.gotMilk = true)
    (hl : (∃ p ∈ inputs, parseRoute p.1 = Route.straight) ∨ st.gotLighter = true) :
    (storeRun sb st inputs).gotEggs = true ∧ (storeRun sb st inputs).gotMilk = true ∧
      (storeRun sb st inputs).gotLighter = true := by
  induction inputs generalizing st with
  | nil =>
    refine ⟨?_, ?_, ?_⟩
    · rcases he with ⟨p, hp, _⟩ | he
      · simp at hp
      · exact he
    · rcases hm with ⟨p, hp, _⟩ | hm
      · simp at hp
      · exact hm
    · rcases hl with ⟨p, hp, _⟩ | hl
      · simp at hp
      · exact hl
  | cons p rest ih =>
    obtain ⟨d, r⟩ := p
    simp only [storeRun]
    split
    · refine ih (storeStep sb st d r) (inv_step sb st d r h) ?_ ?_ ?_
      · rcases he with ⟨q, hq, hql⟩ | hflag
        · rcases List.mem_cons.mp hq with hq1 | hq2
          · exact Or.inr (step_left_gotEggs sb st d r h (by rw [hq1] at hql; exact hql))
          · exact Or.inl ⟨q, hq2, hql⟩
        · exact Or.inr (step_gotEggs_mono sb st d r hflag)
      · rcases hm with ⟨q, hq, hql⟩ | hflag
        · rcases List.mem_cons.mp hq with hq1 | hq2
          · exact Or.inr (step_right_gotMilk sb st d r h (by rw [hq1] at hql; exact hql))
          · exact Or.inl ⟨q, hq2, hql⟩
        · exact Or.inr (step_gotMilk_mono sb st d r hflag)
      · rcases hl with ⟨q, hq, hql⟩ | hflag
        · rcases List.mem_cons.mp hq with hq1 | hq2
          · exact Or.inr (step_straight_gotLighter sb st d r h (by rw [hq1] at hql; exact hql))
          · exact Or.inl ⟨q, hq2, hql⟩
        · exact Or.inr (step_gotLighter_mono sb st d r hflag)
    · rename_i hc
      have hf : st.checkListIncomplete = false := by
        revert hc
        cases st.checkListIncomplete <;> simp
      obtain ⟨h1, h2, h3⟩ := h.2.2.2.2.2.mp hf
      exact ⟨h1, h2, h3⟩

theorem foldl_price_eq (l : List Item) (a : ℚ) :
    List.foldl (fun s it => s + it.price) a l = a + (l.map Item.price).sum := by
  induction l generalizing a with
  | nil => simp
  | cons x xs ih => simp [ih, add_assoc]

theorem shoppingSubTotal_eq_sum (cart : List Item) :
    shoppingSubTotal cart = (cart.map Item.price).sum := by
  unfold shoppingSubTotal
  rw [foldl_price_eq]
  simp

theorem scenario_moneyAfterCheckout (sb m : ℚ) (inputs : List (String × Bool)) :
    (storeScenario sb m inputs).moneyAfterCheckout = afterCheckoutMoney sb m inputs := by
  unfold storeScenario
  split <;> rfl

theorem scenario_cart (sb m : ℚ) (inputs : List (String × Bool)) :
    (storeScenario sb m inputs).cart = (storeRun sb (storeInit m) inputs).cart := by
  unfold storeScenario
  split <;> rfl

theorem scenario_done (sb m : ℚ) (inputs : List (String × Bool)) :
    (storeScenario sb m inputs).done
      = !(storeRun sb (storeInit m) inputs).checkListIncomplete := by
  unfold storeScenario
  split <;> rfl

theorem scenario_gotEnergyDrink (sb m : ℚ) (inputs : List (String × Bool)) :
    (storeScenario sb m inputs).gotEnergyDrink
      = decide (40 ≤ afterCheckoutMoney sb m inputs) := by
  unfold storeScenario
  split
  · rename_i h
    exact (decide_eq_false (not_le.mpr h)).symm
  · rename_i h
    exact (decide_eq_true (not_lt.mp h)).symm

theorem scenario_money (sb m : ℚ) (inputs : List (String × Bool)) :
    (storeScenario sb m inputs).money
      = (if 40 ≤ afterCheckoutMoney sb m inputs
         then afterCheckoutMoney sb m inputs - 6 else afterCheckoutMoney sb m inputs) := by
  unfold storeScenario
  split
  · rename_i h
    rw [if_neg (not_le.mpr h)]
  · rename_i h
    rw [if_pos (not_lt.mp h)]

theorem priceBound_le (st : StoreState) : priceBound st ≤ 22 := by
  unfold priceBound
  split_ifs <;> norm_num

theorem subTotal_le (sb m : ℚ) (inputs : List (String × Bool)) :
    shoppingSubTotal (storeRun sb (storeInit m) inputs).cart ≤ 22 := by
  have h := inv_run sb (storeInit m) inputs (inv_init m)
  have hb := h.2.2.2.2.1
  have hpb := priceBound_le (storeRun sb (storeInit m) inputs)
  linarith

theorem afterCheckoutMoney_ge (sb m : ℚ) (inputs : List (String × Bool)) :
    m - 231 / 10 ≤ afterCheckoutMoney sb m inputs := by
  unfold afterCheckoutMoney totalPrice salesTaxOfSubTotal
  rw [run_money, show (storeInit m).money = m from rfl]
  have hs := subTotal_le sb m inputs
  have h2 : shoppingSubTotal (storeRun sb (storeInit m) inputs).cart * 0.05
      ≤ 22 * 0.05 := mul_le_mul_of_nonneg_right hs (by norm_num)
  have h3 : (22 : ℚ) * 0.05 = 11 / 10 := by norm_num
  linarith

theorem takeBusOrTaxi_choice (m w t b : ℚ) :
    (takeBusOrTaxi m w t b).choice
      = thresholdDecision [1, w, t, b] [0.7, 0.5, 0.4, 0.3] (-0.2) 1.5 := by
  unfold takeBusOrTaxi
  split <;> simp_all

theorem takeBusOrTaxi_money (m w t b : ℚ) :
    (takeBusOrTaxi m w t b).money
      = m - (if (takeBusOrTaxi m w t b).choice then 10 else 5) := by
  unfold takeBusOrTaxi
  split <;> simp

theorem takeBusOrTaxi_money_ge (m w t b : ℚ) :
    m - 10 ≤ (takeBusOrTaxi m w t b).money := by
  unfold takeBusOrTaxi
  split
  · simp
  · simp
    linarith

theorem takeTaxiOrBus_choice (m w t b : ℚ) :
    (takeTaxiOrBus m w t b).choice
      = thresholdDecision [1, w, t, b, if m < 40 then 1 else 0]
          [0.7, -0.5, 0.6, -0.3, 0.4] (-0.2) 1.3 := by
  unfold takeTaxiOrBus
  split <;> split <;> simp_all

theorem takeTaxiOrBus_money (m w t b : ℚ) :
    (takeTaxiOrBus m w t b).money
      = m - (if (takeTaxiOrBus m w t b).choice then 5 else 11) := by
  unfold takeTaxiOrBus
  split <;> split <;> simp


/-- C1: for equal-length non-empty input and weight vectors,
`summationOfInputsAndWeights` returns exactly `bias + Σ inputs[i]*weights[i]`
and the threshold decision is the boolean `(bias + Σ inputs[i]*weights[i]) >=
threshold`.  The evaluator is a pure Lean function of its four arguments, so
it has no side effects and two calls with the same arguments give the same
boolean regardless of any previous calls. -/
theorem summation_threshold_correct (inputs weights : List ℚ) (bias threshold : ℚ)
    (hlen : inputs.length = weights.length) (_hne : inputs ≠ []) :
    summationOfInputsAndWeights (some 0) inputs weights bias
        = some (bias + dot inputs weights) ∧
    thresholdDecision inputs weights bias threshold
        = decide (bias + dot inputs weights ≥ threshold) := by
  have h1 : summationOfInputsAndWeights (some 0) inputs weights bias
      = some (bias + dot inputs weights) := by
    unfold summationOfInputsAndWeights
    rw [sumLoop_some 0 inputs weights (le_of_eq hlen)]
    simp [jsAdd]
    ring
  refine ⟨h1, ?_⟩
  unfold thresholdDecision
  rw [h1]
  rfl

theorem summation_threshold_correct_witness :
    (([(1 : ℚ), 1].length = [(1 : ℚ), 2].length) ∧ [(1 : ℚ), 1] ≠ []) ∧
    (summationOfInputsAndWeights (some 0) [1, 1] [1, 2] 1 = some (1 + dot [1, 1] [1, 2]) ∧
      thresholdDecision [1, 1] [1, 2] 1 2 = decide (1 + dot [1, 1] [1, 2] ≥ 2)) := by
  refine ⟨⟨rfl, by simp⟩, summation_threshold_correct [1, 1] [1, 2] 1 2 rfl (by simp)⟩

/-- C9 counterexample: the evaluator does not fail fast on a length mismatch.
With more inputs than weights it still silently yields the boolean `false`
(the `NaN` comparison), and with more weights than inputs it silently returns
a numeric sum over the common prefix; no abort happens in either direction. -/
theorem mismatch_no_failfast_cex :
    thresholdDecision [1, 1] [0.5] 0 1.5 = false ∧
    summationOfInputsAndWeights (some 0) [1] [0.5, 0.5] 0 = some 0.5 ∧
    ¬([(1 : ℚ), 1].length = [(0.5 : ℚ)].length) := by
  refine ⟨?_, ?_, by simp⟩ <;> with_unfolding_all decide

/-- C9 amended: on a length mismatch the threshold decision function does not
abort.  If `inputs` is longer than `weights`, the sum is `NaN` and the
comparison `NaN >= threshold` is `false`, so the decision silently resolves to
the else-branch; if `weights` is longer, the extra weights are silently
ignored and the sum over the common prefix is returned. -/
theorem mismatch_behavior (inputs weights : List ℚ) (bias threshold : ℚ) :
    (weights.length < inputs.length →
      summationOfInputsAndWeights (some 0) inputs weights bias = none ∧
      thresholdDecision inputs weights bias threshold = false) ∧
    (inputs.length ≤ weights.length →
      summationOfInputsAndWeights (some 0) inputs weights bias
        = some (bias + dot inputs weights)) := by
  constructor
  · intro h
    have h1 : summationOfInputsAndWeights (some 0) inputs weights bias = none := by
      unfold summationOfInputsAndWeights
      rw [sumLoop_overrun 0 inputs weights h]
      rfl
    refine ⟨h1, ?_⟩
    unfold thresholdDecision
    rw [h1]
    rfl
  · intro h
    unfold summationOfInputsAndWeights
    rw [sumLoop_some 0 inputs weights h]
    simp [jsAdd]
    ring

theorem mismatch_behavior_witness :
    ([(0.5 : ℚ)].length < [(1 : ℚ), 1].length ∧
      (summationOfInputsAndWeights (some 0) [1, 1] [0.5] 0 = none ∧
        thresholdDecision [1, 1] [0.5] 0 1.5 = false)) ∧
    ([(1 : ℚ)].length ≤ [(0.5 : ℚ), 0.5].length ∧
      summationOfInputsAndWeights (some 0) [1] [0.5, 0.5] 0
        = some (0 + dot [1] [0.5, 0.5])) := by
  refine ⟨⟨by simp, (mismatch_behavior [1, 1] [0.5] 0 1.5).1 (by simp)⟩,
    ⟨by simp, (mismatch_behavior [1] [0.5, 0.5] 0 1.5).2 (by simp)⟩⟩

/-- C2: for every finite sequence of direction inputs and random draws the
shopping loop puts at most one eggs, one milk and one lighter entry in the
cart, has left the loop (`checkListIncomplete = false`) exactly when all three
checklist flags are true, and any input sequence containing a left, a right
and a straight token completes the checklist — in particular repeating a
direction never buys the item twice and never exits the loop early. -/
theorem shopping_loop_checklist (spending_bias m : ℚ) (inputs : List (String × Bool)) :
    (cartCount (storeRun spending_bias (storeInit m) inputs).cart "eggs" ≤ 1 ∧
      cartCount (storeRun spending_bias (storeInit m) inputs).cart "milk" ≤ 1 ∧
      cartCount (storeRun spending_bias (storeInit m) inputs).cart "lighter" ≤ 1) ∧
    ((storeRun spending_bias (storeInit m) inputs).checkListIncomplete = false ↔
      ((storeRun spending_bias (storeInit m) inputs).gotEggs = true ∧
        (storeRun spending_bias (storeInit m) inputs).gotMilk = true ∧
        (storeRun spending_bias (storeInit m) inputs).gotLighter = true)) ∧
    (((∃ p ∈ inputs, parseRoute p.1 = Route.left) ∧
        (∃ p ∈ inputs, parseRoute p.1 = Route.right) ∧
        (∃ p ∈ inputs, parseRoute p.1 = Route.straight)) →
      (storeRun spending_bias (storeInit m) inputs).checkListIncomplete = false) := by
  obtain ⟨hA, hCE, hCM, hCL, hS, hI⟩ := inv_run spending_bias (storeInit m) inputs (inv_init m)
  refine ⟨⟨?_, ?_, ?_⟩, hI, ?_⟩
  · rw [hCE]
    split <;> omega
  · rw [hCM]
    split <;> omega
  · rw [hCL]
    split <;> omega
  · rintro ⟨he, hm, hl⟩
    obtain ⟨h1, h2, h3⟩ := run_complete spending_bias (storeInit m) inputs
      (inv_init m) (Or.inl he) (Or.inl hm) (Or.inl hl)
    exact hI.mpr ⟨h1, h2, h3⟩

theorem shopping_loop_checklist_witness :
    (storeRun 0 (storeInit 65) [("l", true), ("r", false), ("s", true)]).checkListIncomplete
      = false :=
  (shopping_loop_checklist 0 65 [("l", true), ("r", false), ("s", true)]).2.2
    ⟨⟨("l", true), by simp, by decide⟩, ⟨("r", false), by simp, by decide⟩,
      ⟨("s", true), by simp, by decide⟩⟩

/-- C8: in any reachable state of the shopping loop, an iteration that reads
an invalid direction token, or a direction whose section is already satisfied,
leaves the wallet, the shopping cart, the three checklist flags and the action
history unchanged: no purchase is attempted and the loop simply continues. -/
theorem invalid_or_revisit_preserves_state (spending_bias : ℚ) (st : StoreState)
    (d : String) (r : Bool) (hInv : LoopInv st)
    (h : parseRoute d = Route.invalid ∨
      (parseRoute d = Route.left ∧ st.gotEggs = true) ∨
      (parseRoute d = Route.right ∧ st.gotMilk = true) ∨
      (parseRoute d = Route.straight ∧ st.gotLighter = true)) :
    (storeStep spending_bias st d r).money = st.money ∧
    (storeStep spending_bias st d r).cart = st.cart ∧
    (storeStep spending_bias st d r).gotEggs = st.gotEggs ∧
    (storeStep spending_bias st d r).gotMilk = st.gotMilk ∧
    (storeStep spending_bias st d r).gotLighter = st.gotLighter ∧
    (storeStep spending_bias st d r).actionSeq = st.actionSeq := by
  rcases h with h | ⟨h, hf⟩ | ⟨h, hf⟩ | ⟨h, hf⟩
  · rw [storeStep_invalid spending_bias st d r h]
    exact ⟨completionCheck_money st, completionCheck_cart st, completionCheck_gotEggs st,
      completionCheck_gotMilk st, completionCheck_gotLighter st, completionCheck_actionSeq st⟩
  · rw [storeStep_left spending_bias st d r h]
    unfold eggsBranch
    rw [guard_eggs st hInv.1]
    simp [hf]
  · rw [storeStep_right spending_bias st d r h]
    unfold milkBranch
    rw [guard_milk st hInv.1]
    simp [hf]
  · rw [storeStep_straight spending_bias st d r h]
    unfold lighterBranch
    rw [guard_lighter st hInv.1]
    simp [hf]

theorem invalid_or_revisit_preserves_state_witness :
    (storeStep 0 (storeInit 75) "x" false).money = (storeInit 75).money ∧
    (storeStep 0 (storeInit 75) "x" false).cart = (storeInit 75).cart ∧
    (storeStep 0 (storeInit 75) "x" false).gotEggs = (storeInit 75).gotEggs ∧
    (storeStep 0 (storeInit 75) "x" false).gotMilk = (storeInit 75).gotMilk ∧
    (storeStep 0 (storeInit 75) "x" false).gotLighter = (storeInit 75).gotLighter ∧
    (storeStep 0 (storeInit 75) "x" false).actionSeq = (storeInit 75).actionSeq :=
  invalid_or_revisit_preserves_state 0 (storeInit 75) "x" false (inv_init 75)
    (Or.inl (by decide))

/-- C3: the outbound decision evaluates the perceptron on
`[1, weather, traffic, busCrowding]` with weights `[0.7, 0.5, 0.4, 0.3]`,
bias `-0.2` and threshold `1.5`; `true` selects the taxi and debits 10,
`false` selects the bus and debits 5.  Inputs `[1,0,0,0]` sum to `0.5 < 1.5`
(bus) and `[1,1,1,1]` to `1.7 ≥ 1.5` (taxi). -/
theorem outbound_transit_spec (m : ℚ) (w t b : Bool) :
    (takeBusOrTaxi m (b2q w) (b2q t) (b2q b)).choice
      = decide (-0.2 + (1 * 0.7 + b2q w * 0.5 + b2q t * 0.4 + b2q b * 0.3) ≥ 1.5) ∧
    (takeBusOrTaxi m (b2q w) (b2q t) (b2q b)).money
      = m - (if (takeBusOrTaxi m (b2q w) (b2q t) (b2q b)).choice then 10 else 5) ∧
    summationOfInputsAndWeights (some 0) [1, 0, 0, 0] [0.7, 0.5, 0.4, 0.3] (-0.2)
      = some 0.5 ∧
    (takeBusOrTaxi m 0 0 0).choice = false ∧
    summationOfInputsAndWeights (some 0) [1, 1, 1, 1] [0.7, 0.5, 0.4, 0.3] (-0.2)
      = some 1.7 ∧
    (takeBusOrTaxi m 1 1 1).choice = true := by
  refine ⟨?_, takeBusOrTaxi_money m _ _ _, by with_unfolding_all decide, ?_,
    by with_unfolding_all decide, ?_⟩
  · rw [takeBusOrTaxi_choice]
    cases w <;> cases t <;> cases b <;> with_unfolding_all decide
  · rw [takeBusOrTaxi_choice]
    with_unfolding_all decide
  · rw [takeBusOrTaxi_choice]
    with_unfolding_all decide

/-- C4: the return decision evaluates the perceptron on
`[1, weather, traffic, busCrowding, moneyLow]` with `moneyLow = 1` iff the
wallet is below 40 at that point, weights `[0.7, -0.5, 0.6, -0.3, 0.4]`, bias
`-0.2` and threshold `1.3`; `true` selects the bus and debits 5, `false`
selects the taxi and debits 11. -/
theorem return_transit_spec (m : ℚ) (w t b : Bool) :
    (takeTaxiOrBus m (b2q w) (b2q t) (b2q b)).choice
      = decide (-0.2 + (1 * 0.7 + b2q w * -0.5 + b2q t * 0.6 + b2q b * -0.3
          + (if m < 40 then (1 : ℚ) else 0) * 0.4) ≥ 1.3) ∧
    (takeTaxiOrBus m (b2q w) (b2q t) (b2q b)).money
      = m - (if (takeTaxiOrBus m (b2q w) (b2q t) (b2q b)).choice then 5 else 11) ∧
    ((if m < 40 then (1 : ℚ) else 0) = 1 ↔ m < 40) := by
  refine ⟨?_, takeTaxiOrBus_money m _ _ _, ?_⟩
  · rw [takeTaxiOrBus_choice]
    by_cases hm : m < 40
    · rw [if_pos hm]
      cases w <;> cases t <;> cases b <;> with_unfolding_all decide
    · rw [if_neg hm]
      cases w <;> cases t <;> cases b <;> with_unfolding_all decide
  · by_cases hm : m < 40
    · rw [if_pos hm]
      simp [hm]
    · rw [if_neg hm]
      norm_num [hm]

/-- C5: each in-store purchase evaluates the perceptron on inputs
`[1, localAvailable, 1]` with weights `[0.6, -0.3, 0.6]`, bias `-0.2` after a
taxi ride and `0` after a bus ride, and threshold `1.0`; `sum ≥ 1` picks the
brand-name variant, otherwise the local variant, with prices eggs 6/8,
milk 7/9, lighter 3/5.  With taxi bias and `localAvailable = 1` the sum is
`0.7 < 1`, so the local variant is chosen. -/
theorem purchase_decision_spec (taxi la : Bool) :
    purchaseDecision (if taxi then -0.2 else 0) (if la then 1 else 0)
      = decide ((if taxi then (-0.2 : ℚ) else 0)
          + (0.6 * 1 + -0.3 * (if la then (1 : ℚ) else 0) + 0.6 * 1) ≥ 1) ∧
    (storeStep (if taxi then -0.2 else 0) (storeInit 65) "l" la).cart
      = [if purchaseDecision (if taxi then -0.2 else 0) (if la then 1 else 0)
         then brandNameEggs else localEggs] ∧
    (storeStep (if taxi then -0.2 else 0) (storeInit 65) "r" la).cart
      = [if purchaseDecision (if taxi then -0.2 else 0) (if la then 1 else 0)
         then brandNameMilk else localMilk] ∧
    (storeStep (if taxi then -0.2 else 0) (storeInit 65) "s" la).cart
      = [if purchaseDecision (if taxi then -0.2 else 0) (if la then 1 else 0)
         then brandNameLighter else localLighter] ∧
    localEggs.price = 6 ∧ brandNameEggs.price = 8 ∧ localMilk.price = 7 ∧
    brandNameMilk.price = 9 ∧ localLighter.price = 3 ∧ brandNameLighter.price = 5 ∧
    summationOfInputsAndWeights (some 0) [1, 1, 1] [0.6, -0.3, 0.6] (-0.2) = some 0.7 ∧
    purchaseDecision (-0.2) 1 = false ∧
    (storeStep (-0.2) (storeInit 65) "l" true).cart = [localEggs] := by
  cases taxi <;> cases la <;> with_unfolding_all decide

/-- C6: at checkout the subtotal is the sum of the cart prices, the tax is
`subtotal * 0.05`, the total is `subtotal + tax`, and the wallet (untouched by
the loop itself, so still the scenario entry money) is debited by exactly that
total; for the cart `[eggs(8), milk(9), lighter(5)]` the subtotal is 22, the
tax 1.10 and the total 23.10. -/
theorem checkout_spec (spending_bias m : ℚ) (inputs : List (String × Bool))
    (cart : List Item) :
    shoppingSubTotal cart = (cart.map Item.price).sum ∧
    totalPrice (shoppingSubTotal cart)
      = shoppingSubTotal cart + shoppingSubTotal cart * 0.05 ∧
    (storeScenario spending_bias m inputs).moneyAfterCheckout
      = (storeRun spending_bias (storeInit m) inputs).money
        - totalPrice (shoppingSubTotal (storeRun spending_bias (storeInit m) inputs).cart) ∧
    (storeRun spending_bias (storeInit m) inputs).money = m ∧
    shoppingSubTotal [brandNameEggs, brandNameMilk, brandNameLighter] = 22 ∧
    salesTaxOfSubTotal 22 = 11 / 10 ∧
    totalPrice 22 = 231 / 10 := by
  refine ⟨shoppingSubTotal_eq_sum cart, rfl, scenario_moneyAfterCheckout spending_bias m inputs,
    ?_, by with_unfolding_all decide, by with_unfolding_all decide,
    by with_unfolding_all decide⟩
  rw [run_money]
  rfl

/-- C7: after the checkout debit the energy drink (cost 6) is purchased if and
only if the wallet is at least 40 at that moment, with no random draw: the
flag is literally the comparison, and the final wallet is the post-checkout
wallet minus 6 exactly in the `≥ 40` case and unchanged otherwise. -/
theorem energy_drink_spec (spending_bias m : ℚ) (inputs : List (String × Bool)) :
    (storeScenario spending_bias m inputs).gotEnergyDrink
      = decide (40 ≤ (storeScenario spending_bias m inputs).moneyAfterCheckout) ∧
    (storeScenario spending_bias m inputs).money
      = (if 40 ≤ (storeScenario spending_bias m inputs).moneyAfterCheckout
         then (storeScenario spending_bias m inputs).moneyAfterCheckout - 6
         else (storeScenario spending_bias m inputs).moneyAfterCheckout) := by
  rw [scenario_moneyAfterCheckout]
  exact ⟨scenario_gotEnergyDrink spending_bias m inputs, scenario_money spending_bias m inputs⟩

/-- C10: in every run that completes the checklist, whatever the random draws
and the order of direction inputs, the wallet right after the grocery checkout
debit is at least `41.9 ≥ 40` (worst case `75 - 10 - 23.10`), so the
`money < 40` skip branch is unreachable and the energy drink is purchased. -/
theorem wallet_after_checkout_ge_forty (w t b : Bool) (inputs : List (String × Bool))
    (_hdone : (pipelineAfterStore w t b inputs).done = true) :
    (419 : ℚ) / 10 ≤ (pipelineAfterStore w t b inputs).moneyAfterCheckout ∧
    (40 : ℚ) ≤ (pipelineAfterStore w t b inputs).moneyAfterCheckout ∧
    (pipelineAfterStore w t b inputs).gotEnergyDrink = true := by
  unfold pipelineAfterStore
  have h1 : (65 : ℚ) ≤ (takeBusOrTaxi 75 (b2q w) (b2q t) (b2q b)).money := by
    have h0 := takeBusOrTaxi_money_ge 75 (b2q w) (b2q t) (b2q b)
    linarith
  have h2 := afterCheckoutMoney_ge
    (if (takeBusOrTaxi 75 (b2q w) (b2q t) (b2q b)).choice then -0.2 else 0)
    (takeBusOrTaxi 75 (b2q w) (b2q t) (b2q b)).money inputs
  have h3 : (419 : ℚ) / 10 ≤ afterCheckoutMoney
      (if (takeBusOrTaxi 75 (b2q w) (b2q t) (b2q b)).choice then -0.2 else 0)
      (takeBusOrTaxi 75 (b2q w) (b2q t) (b2q b)).money inputs := by linarith
  rw [scenario_moneyAfterCheckout, scenario_gotEnergyDrink]
  refine ⟨h3, by linarith, decide_eq_true (by linarith)⟩

theorem wallet_after_checkout_ge_forty_witness :
    (pipelineAfterStore false false false
        [("l", false), ("r", false), ("s", false)]).done = true ∧
    ((419 : ℚ) / 10 ≤ (pipelineAfterStore false false false
        [("l", false), ("r", false), ("s", false)]).moneyAfterCheckout ∧
      (40 : ℚ) ≤ (pipelineAfterStore false false false
        [("l", false), ("r", false), ("s", false)]).moneyAfterCheckout ∧
      (pipelineAfterStore false false false
        [("l", false), ("r", false), ("s", false)]).gotEnergyDrink = true) :=
  ⟨by with_unfolding_all decide,
    wallet_after_checkout_ge_forty false false false
      [("l", false), ("r", false), ("s", false)] (by with_unfolding_all decide)⟩
